import Mathlib

/-!
Verification of the financial classification-and-aggregation core
(`backend/server.py`): column detection from header patterns, numeric
cell normalization, and the five KPI formulas with their fallback chains.

Modelling conventions:
* Python floats are embedded as rationals (`ℚ`); every quantity the spec's
  claims touch is an exact small decimal, on which float arithmetic is exact.
* A raw cell (`Cell`) is a null/NaN marker, a number, or a text value,
  mirroring the three branches of `clean_numeric_value`.
* A pandas `DataFrame` is embedded as its ordered header list plus a list of
  rows; a row maps header names to cells, with a missing key reading as the
  null marker (as pandas yields NaN for a missing cell).
* `float(...)` is embedded by `parsePyFloat`, covering Python's finite
  decimal-literal forms: optional sign, digits with at most one point, and an
  optional exponent part.  (The `inf`/`nan` words and digit-group underscores
  accepted by Python are outside the fragment the claims exercise.)
* `re.sub(r'[...]', '', s)` at `server.py:92` is embedded by `removedChar`.
  The source file's character class literally holds the bytes of the mojibake
  characters U+00E2, U+201A, U+00AC, `$`, U+00C2, U+0141, U+0104, U+0105
  (a double-encoding of `€ $ £ ¥ ₹`), plus `\s`; the embedding keeps the
  class exactly as the file has it.
-/

namespace Server

/-- Raw cell value: the three shapes `clean_numeric_value` distinguishes
(null/NaN marker, numeric value, text). -/
inductive Cell where
  | null : Cell
  | num : ℚ → Cell
  | str : String → Cell
deriving DecidableEq, Repr

/-- Row of a dataset: header name to raw cell value. -/
abbrev Row := List (String × Cell)

/-- Reading a cell of a row by header name; a missing key reads as the
null marker, as pandas materializes missing cells as NaN. -/
def getCell (r : Row) (h : String) : Cell := (List.lookup h r).getD Cell.null

/-- Embedded pandas DataFrame: ordered headers and ordered rows. -/
structure DataFrame where
  headers : List String
  rows : List Row
deriving DecidableEq, Repr

/-- Whitespace class of Python's regex `\s` (ASCII part). -/
def isPySpace (c : Char) : Bool :=
  c == ' ' || c == '\t' || c == '\n' || c == '\r' ||
  c == Char.ofNat 0x0B || c == Char.ofNat 0x0C

/-- Character class of the `re.sub` call at `server.py:92`.  The source
bytes decode to the characters U+00E2 U+201A U+00AC `$` U+00C2 U+0141
U+0104 U+0105 (mojibake of the currency symbols) plus `\s`. -/
def removedChar (c : Char) : Bool :=
  c == Char.ofNat 0xE2 || c == Char.ofNat 0x201A || c == Char.ofNat 0xAC ||
  c == '$' || c == Char.ofNat 0xC2 || c == Char.ofNat 0x141 ||
  c == Char.ofNat 0x104 || c == Char.ofNat 0x105 || isPySpace c

/-- Python `str.strip()` on a character list. -/
def stripEnds (cs : List Char) : List Char :=
  ((cs.dropWhile isPySpace).reverse.dropWhile isPySpace).reverse

/-- All characters are decimal digits. -/
def allDigits (cs : List Char) : Bool := cs.all (fun c => c.isDigit)

/-- Value of a digit string. -/
def digitsToNat (cs : List Char) : ℕ :=
  cs.foldl (fun a c => a * 10 + (c.toNat - 48)) 0

/-- Splitting a float literal at its first `e`/`E` (exponent marker). -/
def splitExp : List Char → List Char × Option (List Char)
  | [] => ([], none)
  | c :: t =>
    if c = 'e' ∨ c = 'E' then ([], some t)
    else
      let r := splitExp t
      (c :: r.1, r.2)

/-- Splitting at the first decimal point. -/
def splitPoint : List Char → List Char × Option (List Char)
  | [] => ([], none)
  | c :: t =>
    if c = '.' then ([], some t)
    else
      let r := splitPoint t
      (c :: r.1, r.2)

/-- Mantissa of a Python float literal: digits with at most one point and at
least one digit overall (`"1."` and `".5"` parse, `"."` and `""` do not). -/
def parseMantissa (cs : List Char) : Option ℚ :=
  match splitPoint cs with
  | (ip, none) =>
    if ip ≠ [] ∧ allDigits ip = true then some ((digitsToNat ip : ℚ)) else none
  | (ip, some fp) =>
    if (ip ≠ [] ∨ fp ≠ []) ∧ allDigits ip = true ∧ allDigits fp = true then
      some ((digitsToNat ip : ℚ) + (digitsToNat fp : ℚ) / (10 : ℚ) ^ fp.length)
    else none

/-- Exponent part of a Python float literal: optional sign, then digits. -/
def parseExpPart (cs : List Char) : Option ℤ :=
  match cs with
  | [] => none
  | c :: t =>
    if c = '+' then
      (if t ≠ [] ∧ allDigits t = true then some ((digitsToNat t : ℤ)) else none)
    else if c = '-' then
      (if t ≠ [] ∧ allDigits t = true then some (-(digitsToNat t : ℤ)) else none)
    else (if allDigits (c :: t) = true then some ((digitsToNat (c :: t) : ℤ)) else none)

/-- Unsigned Python float literal: mantissa with optional exponent. -/
def parseUnsigned (cs : List Char) : Option ℚ :=
  match splitExp cs with
  | (m, none) => parseMantissa m
  | (m, some e) =>
    match parseMantissa m, parseExpPart e with
    | some q, some z => some (q * (10 : ℚ) ^ z)
    | _, _ => none

/-- Python `float(...)` on the finite decimal-literal fragment: one optional
leading sign, then an unsigned literal. -/
def parsePyFloat (cs : List Char) : Option ℚ :=
  match cs with
  | [] => parseUnsigned []
  | c :: t =>
    if c = '+' then parseUnsigned t
    else if c = '-' then (parseUnsigned t).map (fun q => -q)
    else parseUnsigned (c :: t)

/-- Comma-to-period replacement of `server.py:93`. -/
def pySwapComma (c : Char) : Char := if c = ',' then '.' else c

/-- Text-cleaning pipeline of `clean_numeric_value` (`server.py:91-93`):
strip surrounding whitespace, delete the regex class characters, replace
every comma by a period. -/
def cleanChars (s : String) : List Char :=
  ((stripEnds s.toList).filter (fun c => !removedChar c)).map pySwapComma

/-- Embedding of `clean_numeric_value` (`server.py:82-98`): null/empty gives
0.0, numeric values pass through, text is cleaned and parsed with parse
failure giving 0.0. -/
def clean_numeric_value : Cell → ℚ
  | Cell.null => 0
  | Cell.num q => q
  | Cell.str s =>
    if s = "" then 0
    else
      match parsePyFloat (cleanChars s) with
      | some q => q
      | none => 0

/-- Pattern registry `COLUMN_PATTERNS` (`server.py:53-64`), in source order. -/
def COLUMN_PATTERNS : List (String × List String) :=
  [("revenus", ["revenus", "revenue", "sales", "ventes", "chiffre_affaires", "ca", "turnover", "income"]),
   ("charges", ["charges", "expenses", "costs", "depenses", "charges_operationnelles", "operating_expenses"]),
   ("ebitda", ["ebitda", "earnings_before_interest_taxes_depreciation_amortization"]),
   ("resultat_operationnel", ["resultat_operationnel", "operating_income", "operating_result", "ebit"]),
   ("amortissements", ["amortissements", "depreciation", "amortization", "depreciation_amortization"]),
   ("resultat_net", ["resultat_net", "net_income", "net_profit", "benefice_net", "profit"]),
   ("impots", ["impots", "taxes", "tax", "impot_societes"]),
   ("cash_flow", ["cash_flow", "cashflow", "flux_tresorerie"]),
   ("investissements", ["investissements", "investments", "capex", "capital_expenditure"]),
   ("date", ["date", "periode", "month", "mois", "year", "annee", "trimestre", "quarter"])]

/-- Header normalization of `server.py:69`: lowercase, then spaces and
hyphens to underscores (all three operations are per-character). -/
def normChar (c : Char) : Char :=
  let d := c.toLower
  if d = ' ' ∨ d = '-' then '_' else d

/-- Normalized form of one header. -/
def normCol (s : String) : String := String.mk (s.toList.map normChar)

/-- Membership of `needle` as a leading segment of `hay`. -/
def leadsList : List Char → List Char → Bool
  | [], _ => true
  | _ :: _, [] => false
  | a :: as, b :: bs => a == b && leadsList as bs

/-- Occurrence of `needle` as a contiguous substring of `hay`
(Python's `in` on strings). -/
def occursIn (needle : List Char) : List Char → Bool
  | [] => leadsList needle []
  | c :: t => leadsList needle (c :: t) || occursIn needle t

/-- Symmetric substring test of `server.py:74`:
`pattern in col or col in pattern`. -/
def symmMatch (ncol pat : String) : Bool :=
  occursIn pat.toList ncol.toList || occursIn ncol.toList pat.toList

/-- Inner pattern loop of `detect_columns` (`server.py:73-76`): first
pattern match wins. -/
def patternLoop (ncol : String) : List String → Bool
  | [] => false
  | p :: ps => if symmMatch ncol p then true else patternLoop ncol ps

/-- Middle column loop of `detect_columns` (`server.py:72-78`): the first
column (in header order) matching any pattern is recorded, then the loop
stops for this category. -/
def columnLoop (pats : List String) : List (String × String) → Option String
  | [] => none
  | c :: rest => if patternLoop c.1 pats then some c.2 else columnLoop pats rest

/-- Embedding of `detect_columns` (`server.py:66-80`): categories in registry
order, headers in original order, patterns in registry order; the result is
the insertion-ordered mapping category to original header. -/
def detect_columns (headers : List String) : List (String × String) :=
  COLUMN_PATTERNS.foldl
    (fun acc cp =>
      match columnLoop cp.2 (headers.map (fun h => (normCol h, h))) with
      | some o => acc ++ [(cp.1, o)]
      | none => acc) []

/-- Modelled from the spec: the §4.2 description of `ColumnDetector.detect`
as a two-level ordered scan — for each category of the registry, in order,
the first header (in original order) whose normalized form passes the
symmetric substring test against some pattern of the category. Used only to
compare with the source-derived `detect_columns`. -/
def detectSpec (headers : List String) : List (String × String) :=
  COLUMN_PATTERNS.filterMap (fun cp =>
    (headers.find? (fun h => cp.2.any (fun p => symmMatch (normCol h) p))).map
      (fun h => (cp.1, h)))

/-- KPI record of `calculate_kpis` (`server.py:102-108`). -/
structure KPIs where
  revenus_totaux : ℚ
  ebitda : ℚ
  resultat_net : ℚ
  free_cash_flow : ℚ
  marge_nette : ℚ
deriving DecidableEq, Repr

/-- Helper `get_column_sum` of `server.py:111-116`: sum of the cleaned cells
of the detected column, 0.0 when the category or the column is absent. -/
def get_column_sum (df : DataFrame) (detected : List (String × String))
    (column_type : String) : ℚ :=
  match List.lookup column_type detected with
  | some col_name =>
    if df.headers.contains col_name then
      (df.rows.map (fun r => clean_numeric_value (getCell r col_name))).sum
    else 0
  | none => 0

/-- KPI 1 (`server.py:119`): total revenue. -/
def kpi_revenus_totaux (df : DataFrame) (det : List (String × String)) : ℚ :=
  get_column_sum df det "revenus"

/-- KPI 2 (`server.py:121-130`): EBITDA with its fallback branch. -/
def kpi_ebitda (df : DataFrame) (det : List (String × String)) : ℚ :=
  if 0 < get_column_sum df det "resultat_operationnel" then
    get_column_sum df det "resultat_operationnel" +
      get_column_sum df det "amortissements"
  else kpi_revenus_totaux df det - get_column_sum df det "charges"

/-- KPI 3 (`server.py:132-141`): net income with its fallback branch. -/
def kpi_resultat_net (df : DataFrame) (det : List (String × String)) : ℚ :=
  if 0 < get_column_sum df det "resultat_net" then
    get_column_sum df det "resultat_net"
  else
    kpi_revenus_totaux df det - get_column_sum df det "charges" -
      get_column_sum df det "impots"

/-- KPI 4 (`server.py:143-150`): free cash flow; the fallback reads the
already-computed net-income KPI. -/
def kpi_free_cash_flow (df : DataFrame) (det : List (String × String)) : ℚ :=
  if 0 < get_column_sum df det "cash_flow" then
    get_column_sum df det "cash_flow" - get_column_sum df det "investissements"
  else kpi_resultat_net df det - get_column_sum df det "investissements"

/-- KPI 5 (`server.py:152-154`): net margin in percent, guarded on positive
total revenue. -/
def kpi_marge_nette (df : DataFrame) (det : List (String × String)) : ℚ :=
  if 0 < kpi_revenus_totaux df det then
    kpi_resultat_net df det / kpi_revenus_totaux df det * 100
  else 0

/-- Embedding of `calculate_kpis` (`server.py:100-156`): the five fields in
their evaluation order. -/
def calculate_kpis (df : DataFrame) (det : List (String × String)) : KPIs :=
  ⟨kpi_revenus_totaux df det, kpi_ebitda df det, kpi_resultat_net df det,
   kpi_free_cash_flow df det, kpi_marge_nette df det⟩

/-! ### Detection lemmas -/

theorem patternLoop_eq_any (n : String) :
    ∀ ps : List String, patternLoop n ps = ps.any (fun p => symmMatch n p) := by
  intro ps
  induction ps with
  | nil => rfl
  | cons p t ih => cases hm : symmMatch n p <;> simp [patternLoop, hm, ih]

theorem columnLoop_eq_find (pats : List String) :
    ∀ hs : List String,
      columnLoop pats (hs.map (fun h => (normCol h, h))) =
        hs.find? (fun h => patternLoop (normCol h) pats) := by
  intro hs
  induction hs with
  | nil => rfl
  | cons h t ih =>
    cases hp : patternLoop (normCol h) pats <;>
      simp [columnLoop, hp, ih, List.find?_cons_of_pos, List.find?_cons_of_neg]

theorem detect_foldl (hs : List String) :
    ∀ (l : List (String × List String)) (acc : List (String × String)),
      l.foldl
          (fun acc cp =>
            match columnLoop cp.2 (hs.map (fun h => (normCol h, h))) with
            | some o => acc ++ [(cp.1, o)]
            | none => acc) acc =
        acc ++ l.filterMap
          (fun cp =>
            (columnLoop cp.2 (hs.map (fun h => (normCol h, h)))).map
              (fun o => (cp.1, o))) := by
  intro l
  induction l with
  | nil => intro acc; simp
  | cons cp t ih =>
    intro acc
    cases hg : columnLoop cp.2 (hs.map (fun h => (normCol h, h))) with
    | none => simp [List.foldl_cons, List.filterMap_cons, hg, ih]
    | some o => simp [List.foldl_cons, List.filterMap_cons, hg, ih]

theorem detect_columns_eq_detectSpec (hs : List String) :
    detect_columns hs = detectSpec hs := by
  unfold detect_columns detectSpec
  rw [detect_foldl hs COLUMN_PATTERNS []]
  simp only [List.nil_append]
  congr 1
  funext cp
  rw [columnLoop_eq_find]
  simp only [patternLoop_eq_any]

/-- C4: `detect_columns` is the ordered two-level scan the spec describes —
categories in registry order, headers in original order, the symmetric
substring test, first matching header recorded with no further search — and
on headers `["Date", "Revenus", "Charges"]` it yields exactly the mapping
`date`/`revenus`/`charges` to the original headers and nothing else. -/
theorem detect_ordered_scan :
    (∀ hs : List String, detect_columns hs = detectSpec hs) ∧
    detect_columns ["Date", "Revenus", "Charges"] =
      [("revenus", "Revenus"), ("charges", "Charges"), ("date", "Date")] :=
  ⟨detect_columns_eq_detectSpec, by decide⟩

theorem occursIn_nil (hay : List Char) : occursIn [] hay = true := by
  cases hay <;> simp [occursIn, leadsList]

theorem symmMatch_empty (p : String) : symmMatch "" p = true := by
  have h : ("" : String).toList = [] := rfl
  simp [symmMatch, h, occursIn_nil]

theorem cat_mem_detect (hs : List String) (cp : String × List String)
    (hcp : cp ∈ COLUMN_PATTERNS) (x : String) (hx : x ∈ hs)
    (hpred : cp.2.any (fun p => symmMatch (normCol x) p) = true) :
    cp.1 ∈ (detect_columns hs).map Prod.fst := by
  rw [detect_columns_eq_detectSpec]
  have hsome : (hs.find? (fun h => cp.2.any (fun p => symmMatch (normCol h) p))).isSome := by
    rw [List.find?_isSome]
    exact ⟨x, hx, hpred⟩
  obtain ⟨h', hh'⟩ := Option.isSome_iff_exists.mp hsome
  refine List.mem_map.mpr ⟨(cp.1, h'), List.mem_filterMap.mpr ⟨cp, hcp, ?_⟩, rfl⟩
  rw [hh']
  rfl

/-- C9: whenever some header normalizes to the empty string, the empty
string is a substring of every pattern, so `detect_columns` returns a
mapping containing all ten categories of the registry. -/
theorem empty_header_detects_all (hs : List String)
    (h : ∃ x ∈ hs, normCol x = "") :
    ∀ cat ∈ COLUMN_PATTERNS.map Prod.fst,
      cat ∈ (detect_columns hs).map Prod.fst := by
  obtain ⟨x, hx, hnorm⟩ := h
  intro cat hcat
  obtain ⟨cp, hcp, rfl⟩ := List.mem_map.mp hcat
  refine cat_mem_detect hs cp hcp x hx ?_
  simp only [hnorm]
  simp only [COLUMN_PATTERNS, List.mem_cons, List.not_mem_nil, or_false] at hcp
  rcases hcp with rfl | rfl | rfl | rfl | rfl | rfl | rfl | rfl | rfl | rfl <;>
    simp [symmMatch_empty]

/-- C9 witness: the singleton header list `[""]` normalizes to the empty
string, and detection then contains every category; shown here for `date`. -/
theorem empty_header_detects_all_witness :
    "date" ∈ (detect_columns [""]).map Prod.fst :=
  empty_header_detects_all [""] ⟨"", by simp, rfl⟩ "date" (by decide)

/-! ### Association-list lemmas for the detected-column mapping -/

theorem lookup_filter_ne (k key : String) (hk : k ≠ key) :
    ∀ l : List (String × String),
      List.lookup k (l.filter (fun p => p.1 != key)) = List.lookup k l := by
  intro l
  induction l with
  | nil => rfl
  | cons a t ih =>
    obtain ⟨a1, a2⟩ := a
    by_cases h1 : a1 = key
    · subst h1
      simp [List.filter_cons, List.lookup, beq_eq_false_iff_ne.mpr hk, ih]
    · have hb : ((a1 : String) != key) = true := bne_iff_ne.mpr h1
      cases hka : (k == a1) <;> simp [List.filter_cons, hb, List.lookup, hka, ih]

theorem lookup_filter_self (key : String) :
    ∀ l : List (String × String),
      List.lookup key (l.filter (fun p => p.1 != key)) = none := by
  intro l
  induction l with
  | nil => rfl
  | cons a t ih =>
    obtain ⟨a1, a2⟩ := a
    by_cases h1 : a1 = key
    · subst h1
      simp [List.filter_cons, ih]
    · have hb : ((a1 : String) != key) = true := bne_iff_ne.mpr h1
      simp [List.filter_cons, hb, List.lookup, beq_eq_false_iff_ne.mpr (Ne.symm h1), ih]

theorem mem_of_lookup_eq_some {k v : String} :
    ∀ {l : List (String × String)}, List.lookup k l = some v → (k, v) ∈ l := by
  intro l
  induction l with
  | nil => intro h; simp [List.lookup] at h
  | cons a t ih =>
    obtain ⟨a1, a2⟩ := a
    intro h
    cases hka : (k == a1) with
    | true =>
      rw [List.lookup, hka] at h
      obtain rfl : a2 = v := by simpa using h
      exact List.mem_cons.mpr (Or.inl (by rw [eq_of_beq hka]))
    | false =>
      rw [List.lookup, hka] at h
      exact List.mem_cons.mpr (Or.inr (ih h))

theorem get_column_sum_filter (df : DataFrame) (det : List (String × String))
    (key c : String) (h : c ≠ key) :
    get_column_sum df (det.filter (fun p => p.1 != key)) c =
      get_column_sum df det c := by
  unfold get_column_sum
  rw [lookup_filter_ne c key h det]

theorem get_column_sum_filter_self (df : DataFrame)
    (det : List (String × String)) (key : String) :
    get_column_sum df (det.filter (fun p => p.1 != key)) key = 0 := by
  unfold get_column_sum
  rw [lookup_filter_self key det]

/-! ### KPI claims -/

/-- C3: the EBITDA KPI is `resultat_operationnel` plus `amortissements` when
the former sum is positive, else total revenue minus the `charges` sum; and
deleting the detected `ebitda` category from the mapping changes no KPI at
all, so that category is never read. -/
theorem ebitda_formula_ignores_ebitda_category :
    (∀ (df : DataFrame) (det : List (String × String)),
      (calculate_kpis df det).ebitda =
        if 0 < get_column_sum df det "resultat_operationnel" then
          get_column_sum df det "resultat_operationnel" +
            get_column_sum df det "amortissements"
        else (calculate_kpis df det).revenus_totaux -
          get_column_sum df det "charges") ∧
    (∀ (df : DataFrame) (det : List (String × String)),
      calculate_kpis df (det.filter (fun p => p.1 != "ebitda")) =
        calculate_kpis df det) := by
  constructor
  · intro df det
    rfl
  · intro df det
    have e1 := get_column_sum_filter df det "ebitda" "revenus" (by decide)
    have e2 := get_column_sum_filter df det "ebitda" "resultat_operationnel" (by decide)
    have e3 := get_column_sum_filter df det "ebitda" "amortissements" (by decide)
    have e4 := get_column_sum_filter df det "ebitda" "charges" (by decide)
    have e5 := get_column_sum_filter df det "ebitda" "resultat_net" (by decide)
    have e6 := get_column_sum_filter df det "ebitda" "impots" (by decide)
    have e7 := get_column_sum_filter df det "ebitda" "cash_flow" (by decide)
    have e8 := get_column_sum_filter df det "ebitda" "investissements" (by decide)
    unfold calculate_kpis kpi_marge_nette kpi_free_cash_flow kpi_resultat_net
      kpi_ebitda kpi_revenus_totaux
    rw [e1, e2, e3, e4, e5, e6, e7, e8]

/-- C5: the net-income KPI is the `resultat_net` sum when that sum is
strictly positive, else revenue minus `charges` minus `impots`; a zero or
negative sum produces the very value an absent category produces. -/
theorem resultat_net_formula (df : DataFrame) (det : List (String × String)) :
    (calculate_kpis df det).resultat_net =
      (if 0 < get_column_sum df det "resultat_net" then
        get_column_sum df det "resultat_net"
      else (calculate_kpis df det).revenus_totaux -
        get_column_sum df det "charges" - get_column_sum df det "impots") ∧
    (get_column_sum df det "resultat_net" ≤ 0 →
      (calculate_kpis df det).resultat_net =
        (calculate_kpis df (det.filter (fun p => p.1 != "resultat_net"))).resultat_net) := by
  constructor
  · rfl
  · intro hle
    have h0 : ¬ 0 < get_column_sum df det "resultat_net" := not_lt.mpr hle
    show kpi_resultat_net df det =
      kpi_resultat_net df (det.filter (fun p => p.1 != "resultat_net"))
    have e1 := get_column_sum_filter df det "resultat_net" "revenus" (by decide)
    have e2 := get_column_sum_filter df det "resultat_net" "charges" (by decide)
    have e3 := get_column_sum_filter df det "resultat_net" "impots" (by decide)
    have e0 := get_column_sum_filter_self df det "resultat_net"
    unfold kpi_resultat_net kpi_revenus_totaux
    rw [e0, e1, e2, e3, if_neg h0, if_neg (by norm_num : ¬ (0 : ℚ) < 0)]

/-- C5 witness data: a dataset whose `resultat_net` column sums to a
negative value. -/
def dfNegRN : DataFrame :=
  ⟨["Rev", "RN"], [[("Rev", Cell.num 50), ("RN", Cell.num (-3))]]⟩

/-- C5 witness mapping. -/
def detNegRN : List (String × String) :=
  [("revenus", "Rev"), ("resultat_net", "RN")]

/-- C5 witness: on a concrete dataset with a negative `resultat_net` sum,
the net-income KPI coincides with the one computed after deleting the
category from the mapping. -/
theorem resultat_net_formula_witness :
    get_column_sum dfNegRN detNegRN "resultat_net" ≤ 0 ∧
    (calculate_kpis dfNegRN detNegRN).resultat_net =
      (calculate_kpis dfNegRN
        (detNegRN.filter (fun p => p.1 != "resultat_net"))).resultat_net := by
  have h : get_column_sum dfNegRN detNegRN "resultat_net" ≤ 0 := by
    simp +decide [get_column_sum, dfNegRN, detNegRN, getCell, clean_numeric_value,
      List.lookup]
  exact ⟨h, (resultat_net_formula dfNegRN detNegRN).2 h⟩

/-- C6 concrete data: net loss in the `resultat_net` column, no cash-flow
column, an investment column. -/
def dfLoss : DataFrame :=
  ⟨["Rev", "RN", "Inv"],
   [[("Rev", Cell.num 50), ("RN", Cell.num (-100)), ("Inv", Cell.num 10)]]⟩

/-- C6 concrete mapping. -/
def detLoss : List (String × String) :=
  [("revenus", "Rev"), ("resultat_net", "RN"), ("investissements", "Inv")]

/-- C6: the free-cash-flow KPI is the `cash_flow` sum minus the
`investissements` sum when the former is positive, else the already-computed
net-income KPI field minus the `investissements` sum; on the concrete
dataset `dfLoss` the fallback consumes the net-income KPI (50, itself a
fallback value) rather than the raw `resultat_net` sum (-100), giving 40. -/
theorem free_cash_flow_formula :
    (∀ (df : DataFrame) (det : List (String × String)),
      (calculate_kpis df det).free_cash_flow =
        if 0 < get_column_sum df det "cash_flow" then
          get_column_sum df det "cash_flow" -
            get_column_sum df det "investissements"
        else (calculate_kpis df det).resultat_net -
          get_column_sum df det "investissements") ∧
    (get_column_sum dfLoss detLoss "resultat_net" = -100 ∧
     (calculate_kpis dfLoss detLoss).resultat_net = 50 ∧
     (calculate_kpis dfLoss detLoss).free_cash_flow = 40) := by
  have g1 : get_column_sum dfLoss detLoss "resultat_net" = -100 := by
    simp +decide [get_column_sum, dfLoss, detLoss, getCell, clean_numeric_value,
      List.lookup]
  have g2 : get_column_sum dfLoss detLoss "revenus" = 50 := by
    simp +decide [get_column_sum, dfLoss, detLoss, getCell, clean_numeric_value,
      List.lookup]
  have g3 : get_column_sum dfLoss detLoss "charges" = 0 := by
    simp +decide [get_column_sum, dfLoss, detLoss, getCell, clean_numeric_value,
      List.lookup]
  have g4 : get_column_sum dfLoss detLoss "impots" = 0 := by
    simp +decide [get_column_sum, dfLoss, detLoss, getCell, clean_numeric_value,
      List.lookup]
  have g5 : get_column_sum dfLoss detLoss "cash_flow" = 0 := by
    simp +decide [get_column_sum, dfLoss, detLoss, getCell, clean_numeric_value,
      List.lookup]
  have g6 : get_column_sum dfLoss detLoss "investissements" = 10 := by
    simp +decide [get_column_sum, dfLoss, detLoss, getCell, clean_numeric_value,
      List.lookup]
  have hrn : kpi_resultat_net dfLoss detLoss = 50 := by
    unfold kpi_resultat_net kpi_revenus_totaux
    rw [g1, g2, g3, g4, if_neg (by norm_num : ¬ (0 : ℚ) < -100)]
    norm_num
  refine ⟨fun df det => rfl, g1, hrn, ?_⟩
  show kpi_free_cash_flow dfLoss detLoss = 40
  unfold kpi_free_cash_flow
  rw [g5, g6, hrn, if_neg (by norm_num : ¬ (0 : ℚ) < 0)]
  norm_num

/-- C7: totality of the core error policy — unparseable text degrades to
0.0 inside `clean_numeric_value`, and the `marge_nette` division happens
only under the positive-revenue guard, the field staying 0.0 otherwise. -/
theorem core_never_fails :
    (∀ s : String, parsePyFloat (cleanChars s) = none →
      clean_numeric_value (Cell.str s) = 0) ∧
    (∀ (df : DataFrame) (det : List (String × String)),
      get_column_sum df det "revenus" ≤ 0 →
      (calculate_kpis df det).marge_nette = 0) ∧
    (∀ (df : DataFrame) (det : List (String × String)),
      0 < get_column_sum df det "revenus" →
      (calculate_kpis df det).marge_nette =
        (calculate_kpis df det).resultat_net /
          (calculate_kpis df det).revenus_totaux * 100) := by
  refine ⟨?_, ?_, ?_⟩
  · intro s hp
    by_cases hs : s = ""
    · simp [clean_numeric_value, hs]
    · simp [clean_numeric_value, hs, hp]
  · intro df det h
    show kpi_marge_nette df det = 0
    unfold kpi_marge_nette kpi_revenus_totaux
    rw [if_neg (not_lt.mpr h)]
  · intro df det h
    show kpi_marge_nette df det = _
    unfold kpi_marge_nette
    rw [if_pos (show 0 < kpi_revenus_totaux df det from h)]
    rfl

/-- C7 witness data: a one-row dataset with positive revenue. -/
def dfPos : DataFrame := ⟨["Rev"], [[("Rev", Cell.num 100)]]⟩

/-- C7 witness mapping. -/
def detPos : List (String × String) := [("revenus", "Rev")]

/-- C7 witness: the unparseable text `"abc"` cleans to 0.0; the empty
dataset keeps `marge_nette` at 0.0; a positive-revenue dataset computes the
percentage from the KPI fields. -/
theorem core_never_fails_witness :
    clean_numeric_value (Cell.str "abc") = 0 ∧
    (calculate_kpis (DataFrame.mk [] []) []).marge_nette = 0 ∧
    (calculate_kpis dfPos detPos).marge_nette =
      (calculate_kpis dfPos detPos).resultat_net /
        (calculate_kpis dfPos detPos).revenus_totaux * 100 := by
  refine ⟨core_never_fails.1 "abc" (by decide),
    core_never_fails.2.1 ⟨[], []⟩ [] (by decide),
    core_never_fails.2.2 dfPos detPos ?_⟩
  have h : get_column_sum dfPos detPos "revenus" = 100 := by
    simp +decide [get_column_sum, dfPos, detPos, getCell, clean_numeric_value,
      List.lookup]
  rw [h]
  norm_num

/-- Appending one row to a dataset. -/
def appendRow (df : DataFrame) (r : Row) : DataFrame :=
  ⟨df.headers, df.rows ++ [r]⟩

theorem get_column_sum_append (df : DataFrame) (det : List (String × String))
    (row : Row) (h : ∀ p ∈ det, clean_numeric_value (getCell row p.2) = 0)
    (c : String) :
    get_column_sum (appendRow df row) det c = get_column_sum df det c := by
  unfold get_column_sum appendRow
  cases hl : List.lookup c det with
  | none => rfl
  | some col =>
    by_cases hc : col ∈ df.headers
    · have hz : clean_numeric_value (getCell row col) = 0 :=
        h (c, col) (mem_of_lookup_eq_some hl)
      simp [hc, hz]
    · simp [hc]

/-- C8: appending a row whose cell in every detected column normalizes to
0.0 leaves every computed KPI unchanged: detection is header-only and each
column sum merely gains a zero term. -/
theorem append_zero_row_preserves_kpis (df : DataFrame)
    (det : List (String × String)) (row : Row)
    (h : ∀ p ∈ det, clean_numeric_value (getCell row p.2) = 0) :
    calculate_kpis (appendRow df row) det = calculate_kpis df det := by
  have hs := get_column_sum_append df det row h
  unfold calculate_kpis kpi_marge_nette kpi_free_cash_flow kpi_resultat_net
    kpi_ebitda kpi_revenus_totaux
  rw [hs "revenus", hs "resultat_operationnel", hs "amortissements",
    hs "charges", hs "resultat_net", hs "impots", hs "cash_flow",
    hs "investissements"]

/-- C8 witness data: base dataset. -/
def dfBase : DataFrame := ⟨["Rev"], [[("Rev", Cell.num 5)]]⟩

/-- C8 witness mapping. -/
def detBase : List (String × String) := [("revenus", "Rev")]

/-- C8 witness row: its only detected cell is blank, normalizing to 0.0. -/
def rowZero : Row := [("Rev", Cell.str "")]

/-- C8 witness: appending the blank row to the concrete dataset leaves the
KPI record unchanged. -/
theorem append_zero_row_preserves_kpis_witness :
    clean_numeric_value (getCell rowZero "Rev") = 0 ∧
    calculate_kpis (appendRow dfBase rowZero) detBase =
      calculate_kpis dfBase detBase :=
  ⟨by decide, append_zero_row_preserves_kpis dfBase detBase rowZero (by decide)⟩

/-! ### Character-class lemmas for the cleaning pipeline -/

theorem isPySpace_iff (c : Char) : isPySpace c = true ↔
    c ∈ ([' ', '\t', '\n', '\r', Char.ofNat 0x0B, Char.ofNat 0x0C] : List Char) := by
  unfold isPySpace
  simp only [Bool.or_eq_true, beq_iff_eq, List.mem_cons, List.not_mem_nil, or_false]
  tauto

theorem removedChar_iff (c : Char) : removedChar c = true ↔
    c ∈ ([Char.ofNat 0xE2, Char.ofNat 0x201A, Char.ofNat 0xAC, '$',
      Char.ofNat 0xC2, Char.ofNat 0x141, Char.ofNat 0x104,
      Char.ofNat 0x105] : List Char) ∨ isPySpace c = true := by
  unfold removedChar
  simp only [Bool.or_eq_true, beq_iff_eq, List.mem_cons, List.not_mem_nil, or_false]
  tauto

theorem isPySpace_eq_false {c : Char} (h : c.isDigit = true ∨ c = ',') :
    isPySpace c = false := by
  cases hsp : isPySpace c
  · rfl
  · exfalso
    have hmem := (isPySpace_iff c).mp hsp
    rcases h with h | rfl
    · simp only [List.mem_cons, List.not_mem_nil, or_false] at hmem
      rcases hmem with rfl | rfl | rfl | rfl | rfl | rfl <;> exact absurd h (by decide)
    · exact absurd hmem (by decide)

theorem removedChar_eq_false {c : Char} (h : c.isDigit = true ∨ c = ',') :
    removedChar c = false := by
  cases hrc : removedChar c
  · rfl
  · exfalso
    rcases (removedChar_iff c).mp hrc with hmem | hsp
    · rcases h with h | rfl
      · simp only [List.mem_cons, List.not_mem_nil, or_false] at hmem
        rcases hmem with rfl | rfl | rfl | rfl | rfl | rfl | rfl | rfl <;>
          exact absurd h (by decide)
      · exact absurd hmem (by decide)
    · rw [isPySpace_eq_false h] at hsp
      exact Bool.false_ne_true hsp

theorem dropWhile_id {p : Char → Bool} (cs : List Char)
    (h : ∀ c ∈ cs, p c = false) : cs.dropWhile p = cs := by
  cases cs with
  | nil => rfl
  | cons a t => rw [List.dropWhile_cons]; simp [h a (List.mem_cons_self a t)]

theorem stripEnds_id (cs : List Char) (h : ∀ c ∈ cs, isPySpace c = false) :
    stripEnds cs = cs := by
  unfold stripEnds
  rw [dropWhile_id cs h,
    dropWhile_id cs.reverse (fun c hc => h c (List.mem_reverse.mp hc)),
    List.reverse_reverse]

/-! ### Parse-failure lemmas for multi-point numerals -/

theorem splitExp_no_e : ∀ cs : List Char, (∀ c ∈ cs, ¬(c = 'e' ∨ c = 'E')) →
    splitExp cs = (cs, none) := by
  intro cs
  induction cs with
  | nil => intro _; rfl
  | cons c t ih =>
    intro h
    have hc : ¬(c = 'e' ∨ c = 'E') := h c (List.mem_cons_self c t)
    have ht := ih (fun x hx => h x (List.mem_cons_of_mem c hx))
    simp [splitExp, hc, ht]

theorem splitPoint_of_count_pos : ∀ cs : List Char, 0 < cs.count '.' →
    ∃ ip fp, splitPoint cs = (ip, some fp) ∧ fp.count '.' + 1 = cs.count '.' := by
  intro cs
  induction cs with
  | nil => intro h; simp at h
  | cons c t ih =>
    intro h
    by_cases hc : c = '.'
    · subst hc
      exact ⟨[], t, by simp [splitPoint], by simp [List.count_cons]⟩
    · have hcb : (c == '.') = false := beq_eq_false_iff_ne.mpr hc
      have ht : 0 < t.count '.' := by simpa [List.count_cons, hcb] using h
      obtain ⟨ip, fp, hsp, hcount⟩ := ih ht
      refine ⟨c :: ip, fp, ?_, ?_⟩
      · simp [splitPoint, hc, hsp]
      · simpa [List.count_cons, hcb] using hcount

theorem allDigits_false_of_dot {fp : List Char} (h : ('.') ∈ fp) :
    allDigits fp = false := by
  cases hall : allDigits fp
  · rfl
  · exfalso
    unfold allDigits at hall
    have hdig : ('.').isDigit = true := by
      simpa using List.all_eq_true.mp hall '.' h
    exact absurd hdig (by decide)

theorem parseMantissa_none_two_dots (cs : List Char) (h2 : 2 ≤ cs.count '.') :
    parseMantissa cs = none := by
  obtain ⟨ip, fp, hsp, hcount⟩ := splitPoint_of_count_pos cs (by omega)
  have hfp : 0 < fp.count '.' := by omega
  have hmem : ('.') ∈ fp := List.count_pos_iff.mp hfp
  have hall := allDigits_false_of_dot hmem
  unfold parseMantissa
  rw [hsp]
  simp [hall]

theorem parseUnsigned_none_two_dots (cs : List Char)
    (hd : ∀ c ∈ cs, c.isDigit = true ∨ c = '.')
    (h2 : 2 ≤ cs.count '.') : parseUnsigned cs = none := by
  have hne : ∀ c ∈ cs, ¬(c = 'e' ∨ c = 'E') := by
    intro c hc
    rcases hd c hc with h | rfl
    · rintro (rfl | rfl) <;> exact absurd h (by decide)
    · rintro (h | h) <;> exact absurd h (by decide)
  unfold parseUnsigned
  rw [splitExp_no_e cs hne]
  exact parseMantissa_none_two_dots cs h2

theorem parsePyFloat_none_two_dots (cs : List Char)
    (hd : ∀ c ∈ cs, c.isDigit = true ∨ c = '.')
    (h2 : 2 ≤ cs.count '.') : parsePyFloat cs = none := by
  cases cs with
  | nil => simp at h2
  | cons c t =>
    have hc := hd c (List.mem_cons_self c t)
    have hplus : ¬ c = '+' := by
      rcases hc with h | rfl
      · rintro rfl; exact absurd h (by decide)
      · decide
    have hminus : ¬ c = '-' := by
      rcases hc with h | rfl
      · rintro rfl; exact absurd h (by decide)
      · decide
    show (if c = '+' then parseUnsigned t
      else if c = '-' then (parseUnsigned t).map (fun q => -q)
      else parseUnsigned (c :: t)) = none
    rw [if_neg hplus, if_neg hminus]
    exact parseUnsigned_none_two_dots (c :: t) hd h2

theorem count_dot_map : ∀ cs : List Char,
    (∀ c ∈ cs, c.isDigit = true ∨ c = ',') →
    (cs.map pySwapComma).count '.' = cs.count ',' := by
  intro cs
  induction cs with
  | nil => intro _; rfl
  | cons c t ih =>
    intro h
    have iht := ih (fun x hx => h x (List.mem_cons_of_mem c hx))
    rcases h c (List.mem_cons_self c t) with hd | rfl
    · have h1 : pySwapComma c = c := by
        unfold pySwapComma
        rw [if_neg]
        rintro rfl; exact absurd hd (by decide)
      have h2 : (c == '.') = false :=
        beq_eq_false_iff_ne.mpr (by rintro rfl; exact absurd hd (by decide))
      have h3 : (c == ',') = false :=
        beq_eq_false_iff_ne.mpr (by rintro rfl; exact absurd hd (by decide))
      simp [List.map_cons, List.count_cons, h1, h2, h3, iht]
    · simp [List.map_cons, List.count_cons, pySwapComma, iht]

theorem map_digit_dot (cs : List Char)
    (h : ∀ c ∈ cs, c.isDigit = true ∨ c = ',') :
    ∀ c ∈ cs.map pySwapComma, c.isDigit = true ∨ c = '.' := by
  intro c hc
  obtain ⟨a, ha, rfl⟩ := List.mem_map.mp hc
  rcases h a ha with hd | rfl
  · left
    have h1 : pySwapComma a = a := by
      unfold pySwapComma
      rw [if_neg]
      rintro rfl; exact absurd hd (by decide)
    rw [h1]; exact hd
  · right; simp [pySwapComma]

/-- C10: a string of digits and at least two commas (no decimal point of its
own) cleans to a numeral with several periods, which `float` rejects, so
`clean_numeric_value` yields 0.0. -/
theorem multi_comma_zero (s : String)
    (h1 : ∀ c ∈ s.toList, c.isDigit = true ∨ c = ',')
    (h2 : 2 ≤ s.toList.count ',') :
    clean_numeric_value (Cell.str s) = 0 := by
  have hne : s ≠ "" := by
    intro he
    rw [he] at h2
    exact absurd h2 (by decide)
  have hnospace : ∀ c ∈ s.toList, isPySpace c = false :=
    fun c hc => isPySpace_eq_false (h1 c hc)
  have hclean : cleanChars s = s.toList.map pySwapComma := by
    unfold cleanChars
    rw [stripEnds_id s.toList hnospace,
      List.filter_eq_self.mpr (fun c hc => by simp [removedChar_eq_false (h1 c hc)])]
  have hp : parsePyFloat (cleanChars s) = none := by
    rw [hclean]
    exact parsePyFloat_none_two_dots _ (map_digit_dot s.toList h1)
      (by rw [count_dot_map s.toList h1]; exact h2)
  simp [clean_numeric_value, hne, hp]

/-- C10 witness: the thousands-separated numeral `"1,234,567"` normalizes
to 0.0. -/
theorem multi_comma_zero_witness :
    clean_numeric_value (Cell.str "1,234,567") = 0 :=
  multi_comma_zero "1,234,567" (by decide) (by decide)

/-- C2 evaluation: the euro sign survives the cleaning class of
`server.py:92` (whose characters are the mojibake of the currency symbols,
not the symbols themselves), so `"€1200"` fails to parse and degrades to
0.0 — against the claimed 1200.0 — while the ASCII `"$"`, intact in the
class, is removed as claimed. -/
theorem euro_symbol_not_removed :
    clean_numeric_value (Cell.str "€1200") = 0 ∧
    clean_numeric_value (Cell.str "$1200") = 1200 := by
  constructor
  · decide
  · decide

/-! ### End-to-end scenario of §8 (with the repository test's EBITDA column) -/

/-- Scenario headers of the §8 end-to-end test. -/
def scenarioHeaders : List String :=
  ["Date", "Revenus", "Charges", "EBITDA", "Resultat_Net", "Cash_Flow",
   "Investissements"]

/-- Scenario row constructor; the EBITDA cell is left free so the blank
variant can reuse the shape. -/
def scenarioRow (d : String) (rev ch : ℚ) (eb : Cell) (rn cf inv : ℚ) : Row :=
  [("Date", Cell.str d), ("Revenus", Cell.num rev), ("Charges", Cell.num ch),
   ("EBITDA", eb), ("Resultat_Net", Cell.num rn), ("Cash_Flow", Cell.num cf),
   ("Investissements", Cell.num inv)]

/-- Scenario dataset with the EBITDA values of the repository's own test
file (`backend_test.py:58-63`). -/
def scenarioDF : DataFrame :=
  ⟨scenarioHeaders,
   [scenarioRow "2024-01" 100000 60000 (Cell.num 45000) 25000 30000 5000,
    scenarioRow "2024-02" 120000 70000 (Cell.num 55000) 30000 35000 8000,
    scenarioRow "2024-03" 110000 65000 (Cell.num 50000) 28000 32000 6000,
    scenarioRow "2024-04" 130000 75000 (Cell.num 60000) 35000 40000 10000,
    scenarioRow "2024-05" 125000 72000 (Cell.num 58000) 33000 38000 7000]⟩

/-- Scenario dataset variant whose EBITDA cells are blank. -/
def scenarioBlankDF : DataFrame :=
  ⟨scenarioHeaders,
   [scenarioRow "2024-01" 100000 60000 (Cell.str "") 25000 30000 5000,
    scenarioRow "2024-02" 120000 70000 (Cell.str "") 30000 35000 8000,
    scenarioRow "2024-03" 110000 65000 (Cell.str "") 28000 32000 6000,
    scenarioRow "2024-04" 130000 75000 (Cell.str "") 35000 40000 10000,
    scenarioRow "2024-05" 125000 72000 (Cell.str "") 33000 38000 7000]⟩

/-- Detected mapping of the scenario headers: the pattern `ebit` of the
`resultat_operationnel` category is a substring of the normalized header
`ebitda`, so that category maps to `EBITDA` too. -/
def scenarioDetected : List (String × String) :=
  [("revenus", "Revenus"), ("charges", "Charges"), ("ebitda", "EBITDA"),
   ("resultat_operationnel", "EBITDA"), ("resultat_net", "Resultat_Net"),
   ("cash_flow", "Cash_Flow"), ("investissements", "Investissements"),
   ("date", "Date")]

theorem scenario_detect : detect_columns scenarioHeaders = scenarioDetected := by
  decide

theorem scenario_sum_revenus :
    get_column_sum scenarioDF scenarioDetected "revenus" = 585000 := by
  simp +decide [get_column_sum, scenarioDF, scenarioRow, scenarioDetected,
    getCell, clean_numeric_value, List.lookup, scenarioHeaders]
  norm_num

theorem scenario_sum_op :
    get_column_sum scenarioDF scenarioDetected "resultat_operationnel" = 268000 := by
  simp +decide [get_column_sum, scenarioDF, scenarioRow, scenarioDetected,
    getCell, clean_numeric_value, List.lookup, scenarioHeaders]
  norm_num

theorem scenario_sum_amort :
    get_column_sum scenarioDF scenarioDetected "amortissements" = 0 := by
  simp +decide [get_column_sum, scenarioDF, scenarioRow, scenarioDetected,
    getCell, clean_numeric_value, List.lookup, scenarioHeaders]

theorem scenario_sum_rn :
    get_column_sum scenarioDF scenarioDetected "resultat_net" = 151000 := by
  simp +decide [get_column_sum, scenarioDF, scenarioRow, scenarioDetected,
    getCell, clean_numeric_value, List.lookup, scenarioHeaders]
  norm_num

theorem scenario_sum_cf :
    get_column_sum scenarioDF scenarioDetected "cash_flow" = 175000 := by
  simp +decide [get_column_sum, scenarioDF, scenarioRow, scenarioDetected,
    getCell, clean_numeric_value, List.lookup, scenarioHeaders]
  norm_num

theorem scenario_sum_inv :
    get_column_sum scenarioDF scenarioDetected "investissements" = 36000 := by
  simp +decide [get_column_sum, scenarioDF, scenarioRow, scenarioDetected,
    getCell, clean_numeric_value, List.lookup, scenarioHeaders]
  norm_num

theorem scenario_sum_charges :
    get_column_sum scenarioDF scenarioDetected "charges" = 342000 := by
  simp +decide [get_column_sum, scenarioDF, scenarioRow, scenarioDetected,
    getCell, clean_numeric_value, List.lookup, scenarioHeaders]
  norm_num

theorem scenario_sum_impots :
    get_column_sum scenarioDF scenarioDetected "impots" = 0 := by
  simp +decide [get_column_sum, scenarioDF, scenarioRow, scenarioDetected,
    getCell, clean_numeric_value, List.lookup, scenarioHeaders]

theorem scenario_kpi_ebitda : kpi_ebitda scenarioDF scenarioDetected = 268000 := by
  unfold kpi_ebitda
  rw [scenario_sum_op, scenario_sum_amort,
    if_pos (by norm_num : (0 : ℚ) < 268000)]
  norm_num

/-- C1 counterexample: on the §8 scenario headers, `detect_columns` does
map `resultat_operationnel` to the `EBITDA` header (pattern `ebit`), and
with the repository test's EBITDA values the primary branch fires, giving
`ebitda = 268000.0` rather than the claimed fallback value 243000.0. -/
theorem scenario_counterexample :
    List.lookup "resultat_operationnel" (detect_columns scenarioHeaders) =
      some "EBITDA" ∧
    (calculate_kpis scenarioDF (detect_columns scenarioHeaders)).ebitda = 268000 ∧
    (calculate_kpis scenarioDF (detect_columns scenarioHeaders)).ebitda ≠ 243000 := by
  refine ⟨by rw [scenario_detect]; decide, ?_, ?_⟩
  · rw [scenario_detect]
    exact scenario_kpi_ebitda
  · rw [scenario_detect]
    show kpi_ebitda scenarioDF scenarioDetected ≠ 243000
    rw [scenario_kpi_ebitda]
    norm_num

theorem blank_sum_revenus :
    get_column_sum scenarioBlankDF scenarioDetected "revenus" = 585000 := by
  simp +decide [get_column_sum, scenarioBlankDF, scenarioRow, scenarioDetected,
    getCell, clean_numeric_value, List.lookup, scenarioHeaders]
  norm_num

theorem blank_sum_charges :
    get_column_sum scenarioBlankDF scenarioDetected "charges" = 342000 := by
  simp +decide [get_column_sum, scenarioBlankDF, scenarioRow, scenarioDetected,
    getCell, clean_numeric_value, List.lookup, scenarioHeaders]
  norm_num

theorem blank_sum_op :
    get_column_sum scenarioBlankDF scenarioDetected "resultat_operationnel" = 0 := by
  simp +decide [get_column_sum, scenarioBlankDF, scenarioRow, scenarioDetected,
    getCell, clean_numeric_value, List.lookup, scenarioHeaders]

/-- C1 amended: on the scenario dataset completed with the repository
test's EBITDA column, the KPIs are `revenus_totaux = 585000`,
`ebitda = 268000` (primary branch, because `resultat_operationnel` maps to
the EBITDA header whose sum 268000 is positive), `resultat_net = 151000`,
`free_cash_flow = 139000`, and `marge_nette = 151000/585000*100`; the
claimed 243000.0 appears only when the EBITDA column sums to a
non-positive value, e.g. with all its cells blank. -/
theorem scenario_kpis_amended :
    calculate_kpis scenarioDF (detect_columns scenarioHeaders) =
      ⟨585000, 268000, 151000, 139000, 151000 / 585000 * 100⟩ ∧
    (calculate_kpis scenarioBlankDF (detect_columns scenarioHeaders)).ebitda =
      243000 := by
  constructor
  · rw [scenario_detect]
    have hA : kpi_revenus_totaux scenarioDF scenarioDetected = 585000 :=
      scenario_sum_revenus
    have hC : kpi_resultat_net scenarioDF scenarioDetected = 151000 := by
      unfold kpi_resultat_net
      rw [scenario_sum_rn, if_pos (by norm_num : (0 : ℚ) < 151000)]
    have hD : kpi_free_cash_flow scenarioDF scenarioDetected = 139000 := by
      unfold kpi_free_cash_flow
      rw [scenario_sum_cf, scenario_sum_inv,
        if_pos (by norm_num : (0 : ℚ) < 175000)]
      norm_num
    have hE : kpi_marge_nette scenarioDF scenarioDetected =
        151000 / 585000 * 100 := by
      unfold kpi_marge_nette
      rw [hC]
      rw [show kpi_revenus_totaux scenarioDF scenarioDetected = 585000 from hA]
      rw [if_pos (by norm_num : (0 : ℚ) < 585000)]
    unfold calculate_kpis
    rw [hA, scenario_kpi_ebitda, hC, hD, hE]
  · rw [scenario_detect]
    show kpi_ebitda scenarioBlankDF scenarioDetected = 243000
    unfold kpi_ebitda kpi_revenus_totaux
    rw [blank_sum_op, blank_sum_revenus, blank_sum_charges,
      if_neg (by norm_num : ¬ (0 : ℚ) < 0)]
    norm_num

end Server
